import Mathlib

/-!
Shallow embedding of the two payment-flow modules of this repository,
src/payment-flows/wallet-capture.js and src/payment-flows/native.js.

External asynchronous calls (order creation, supplemental order lookup,
access-token exchange, one-click approval, message-socket sends, popup
opening) are modelled by an environment record holding the result each
call would produce.  Each operation is a pure function returning the
list of external events it performs, in order, together with its
outcome; promise rejection is modelled with Except.  JavaScript string
truthiness (undefined and the empty string are falsy) is modelled
explicitly, and module-level mutable variables of native.js are modelled
as an explicit module-state record threaded through the mutating
operations.
-/

namespace SmartButtons

/-- Funding sources from @paypal/sdk-constants used by these modules. -/
inductive FundingSource
  | paypal
  | venmo
  | card
  | other
deriving DecidableEq, Repr

/-- JS falsiness of an optional string: undefined/null or the empty string. -/
def jsStrFalsy : Option String → Bool
  | none => true
  | some s => s == ""

/-- A stored payment credential inside the wallet (wallet-capture.js). -/
structure Instrument where
  instrumentID : String
  oneClick : Bool
  type : String
deriving DecidableEq, Repr

/-- The wallet entry for one funding source: its list of instruments. -/
structure WalletFunding where
  instruments : List Instrument
deriving DecidableEq, Repr

/-- The wallet object: a mapping from funding source to its entry. -/
abbrev Wallet := List (FundingSource × WalletFunding)

/-- The fields of serviceData read by wallet-capture.js. -/
structure ServiceData where
  buyerAccessToken : Option String
  wallet : Option Wallet
deriving DecidableEq, Repr

/-- The payment selection: window reference present or not, funding source,
and the optionally selected instrument id. -/
structure Payment where
  win : Bool
  fundingSource : FundingSource
  instrumentID : Option String
deriving DecidableEq, Repr

/-- Lookup of wallet[fundingSource]. -/
def walletLookup (w : Wallet) (fs : FundingSource) : Option WalletFunding :=
  w.lookup fs

/-- The wallet entry for a funding source, absent when the wallet itself or
the entry is absent. -/
def walletEntry (sd : ServiceData) (fs : FundingSource) : Option WalletFunding :=
  sd.wallet.bind (fun w => walletLookup w fs)

/-- isWalletCapturePaymentEligible from wallet-capture.js, with the source
order of early returns: funding source, win, wallet, instrumentID, wallet
entry, matching instrument, oneClick, type. -/
def isWalletCapturePaymentEligible (serviceData : ServiceData) (payment : Payment) : Bool :=
  if payment.fundingSource ≠ FundingSource.paypal then false
  else if payment.win then false
  else
    match serviceData.wallet with
    | none => false
    | some wallet =>
      if jsStrFalsy payment.instrumentID then false
      else
        match walletLookup wallet payment.fundingSource with
        | none => false
        | some walletFunding =>
          match walletFunding.instruments.find? (fun inst => inst.instrumentID == payment.instrumentID.getD "") with
          | none => false
          | some instrument =>
            if !instrument.oneClick then false
            else if instrument.type == "" then false
            else true

/-- The construction-time failures of initWalletCapture.  The wallet being
absent makes the property access wallet[fundingSource] itself throw
(a TypeError), modelled as its own error. -/
inductive InitError
  | instrumentIDRequired
  | buyerAccessTokenRequired
  | walletAccessTypeError
  | walletFundingNotPresent
  | instrumentNotPresent
  | instrumentTypeMissing
deriving DecidableEq, Repr

/-- The data captured by a successfully constructed wallet-capture flow
instance: the validated fields its closures use. -/
structure WalletCaptureInstance where
  payment : Payment
  instrumentID : String
  buyerAccessToken : String
  instrumentType : String
deriving DecidableEq, Repr

/-- initWalletCapture from wallet-capture.js: fail-fast validation, then an
instance capturing the validated fields. -/
def initWalletCapture (serviceData : ServiceData) (payment : Payment) :
    Except InitError WalletCaptureInstance :=
  if jsStrFalsy payment.instrumentID then .error .instrumentIDRequired
  else if jsStrFalsy serviceData.buyerAccessToken then .error .buyerAccessTokenRequired
  else
    match serviceData.wallet with
    | none => .error .walletAccessTypeError
    | some wallet =>
      match walletLookup wallet payment.fundingSource with
      | none => .error .walletFundingNotPresent
      | some walletFunding =>
        match walletFunding.instruments.find? (fun inst => inst.instrumentID == payment.instrumentID.getD "") with
        | none => .error .instrumentNotPresent
        | some instrument =>
          if instrument.type == "" then .error .instrumentTypeMissing
          else .ok {
            payment := payment
            instrumentID := payment.instrumentID.getD ""
            buyerAccessToken := serviceData.buyerAccessToken.getD ""
            instrumentType := instrument.type
          }

/-- The shipping address inside the supplemental order info. -/
structure ShippingAddress where
  isFullAddress : Bool
deriving DecidableEq, Repr

/-- The part of the supplemental order info read by shippingRequired:
checkoutSession.flags.isShippingAddressRequired and
checkoutSession.cart.shippingAddress. -/
structure CheckoutSession where
  isShippingAddressRequired : Bool
  shippingAddress : Option ShippingAddress
deriving DecidableEq, Repr

/-- The buyer-intent constant attached to the fallback payment. -/
inductive BuyerIntent
  | payWithDifferentFundingShipping
deriving DecidableEq, Repr

/-- The payment object handed to checkout.init on fallback:
the original payment spread together with authCode, isClick and
buyerIntent. -/
structure CheckoutPayment where
  payment : Payment
  authCode : Option String
  isClick : Bool
  buyerIntent : BuyerIntent
deriving DecidableEq, Repr

/-- External events performed by the wallet-capture flow, in order. -/
inductive WCEvent
  | callCreateOrder
  | callGetSupplementalOrderInfo (orderID : String)
  | logWebCheckoutFallback
  | callExchangeAccessTokenForAuthCode (buyerAccessToken : String)
  | checkoutInitAndStart (p : CheckoutPayment)
  | callOneClickApproveOrder (orderID : String) (instrumentType : String)
      (buyerAccessToken : String) (instrumentID : String)
  | logApproveOrderError (msg : String)
  | callOnApprove (payerID : String)
deriving DecidableEq, Repr

/-- Errors a wallet-capture start can settle with, tagged by the external
call the rejection came from (JS keeps provenance by object identity). -/
inductive WCError
  | createOrderFailed (msg : String)
  | supplementalFailed (msg : String)
  | approvalFailed (msg : String)
  | exchangeFailed (msg : String)
  | checkoutFailed (msg : String)
  | onApproveFailed (msg : String)
deriving DecidableEq, Repr

/-- The environment of external-call results for a wallet-capture attempt. -/
structure WCEnv where
  createOrderResult : Except String String
  supplementalOrderInfo : String → Except String CheckoutSession
  exchangeAccessTokenForAuthCode : String → Except String String
  oneClickApproveResult : Except String String
  checkoutStartResult : Except String Unit
  onApproveResult : Except String Unit

/-- The boolean computed by shippingRequired from the supplemental order
info: required, unless a full shipping address is already on the cart. -/
def shippingRequiredCompute (session : CheckoutSession) : Bool :=
  if !session.isShippingAddressRequired then false
  else
    match session.shippingAddress with
    | some addr => if addr.isFullAddress then false else true
    | none => true

/-- shippingRequired from wallet-capture.js: the supplemental order lookup
followed by the computation above. -/
def shippingRequired (env : WCEnv) (orderID : String) :
    List WCEvent × Except WCError Bool :=
  ([.callGetSupplementalOrderInfo orderID],
    match env.supplementalOrderInfo orderID with
    | .error m => .error (.supplementalFailed m)
    | .ok session => .ok (shippingRequiredCompute session))

/-- fallbackToWebCheckout from wallet-capture.js: log, exchange the buyer
access token for an auth code, then init and start the web checkout flow
with the marked payment. -/
def fallbackToWebCheckout (env : WCEnv) (inst : WalletCaptureInstance) :
    List WCEvent × Except WCError Unit :=
  let evts := [WCEvent.logWebCheckoutFallback,
               WCEvent.callExchangeAccessTokenForAuthCode inst.buyerAccessToken]
  match env.exchangeAccessTokenForAuthCode inst.buyerAccessToken with
  | .error m => (evts, .error (.exchangeFailed m))
  | .ok authCode =>
    let cp : CheckoutPayment :=
      { payment := inst.payment
        authCode := some authCode
        isClick := false
        buyerIntent := .payWithDifferentFundingShipping }
    (evts ++ [WCEvent.checkoutInitAndStart cp],
      match env.checkoutStartResult with
      | .error m => .error (.checkoutFailed m)
      | .ok _ => .ok ())

/-- start from wallet-capture.js: create the order, check whether shipping
is still required, then either fall back or attempt the one-click
approval; an approval rejection is logged and recovered by falling back. -/
def walletCaptureStart (env : WCEnv) (inst : WalletCaptureInstance) :
    List WCEvent × Except WCError Unit :=
  let evts0 := [WCEvent.callCreateOrder]
  match env.createOrderResult with
  | .error m => (evts0, .error (.createOrderFailed m))
  | .ok orderID =>
    let s := shippingRequired env orderID
    let evts1 := evts0 ++ s.1
    match s.2 with
    | .error e => (evts1, .error e)
    | .ok true =>
      let f := fallbackToWebCheckout env inst
      (evts1 ++ f.1, f.2)
    | .ok false =>
      let evts2 := evts1 ++ [WCEvent.callOneClickApproveOrder orderID
        inst.instrumentType inst.buyerAccessToken inst.instrumentID]
      match env.oneClickApproveResult with
      | .ok payerID =>
        (evts2 ++ [WCEvent.callOnApprove payerID],
          match env.onApproveResult with
          | .error m => .error (.onApproveFailed m)
          | .ok _ => .ok ())
      | .error m =>
        let f := fallbackToWebCheckout env inst
        (evts2 ++ [WCEvent.logApproveOrderError m] ++ f.1, f.2)

/-- close of the wallet-capture instance: an immediately resolved no-op. -/
def walletCaptureClose : List WCEvent × Except WCError Unit :=
  ([], .ok ())

/-- A message socket produced by firebaseSocket, identified by its creation
index and the session id it was opened for (native.js). -/
structure Socket where
  sockId : Nat
  sessionUID : Nat
deriving DecidableEq, Repr

/-- The memoization key of getNativeSocket: the NativeSocketOptions record
(sessionUID, firebaseConfig, version). -/
structure SocketKey where
  sessionUID : Nat
  version : String
  firebaseConfig : String
deriving DecidableEq, Repr

/-- The module-level mutable state of native.js: sessionUID, nativeSocket
and initialPageUrl, together with the uniqueID generator and the memo
table of getNativeSocket. -/
structure NativeModuleState where
  sessionUID : Option Nat
  nativeSocket : Option Socket
  initialPageUrl : Option String
  nextUID : Nat
  nextSockId : Nat
  socketMemo : List (SocketKey × Socket)
deriving DecidableEq, Repr

/-- getNativeSocket from native.js: memoized on its options record; a miss
creates a fresh firebase socket and caches it. -/
def getNativeSocket (st : NativeModuleState) (key : SocketKey) :
    NativeModuleState × Socket :=
  match st.socketMemo.lookup key with
  | some s => (st, s)
  | none =>
    let s : Socket := { sockId := st.nextSockId, sessionUID := key.sessionUID }
    ({ st with
        nextSockId := st.nextSockId + 1
        socketMemo := (key, s) :: st.socketMemo }, s)

/-- The configuration and page-url inputs consumed by setupNative. -/
structure NativeConfig where
  version : String
  firebaseConfig : String
  pageUrl : String
deriving DecidableEq, Repr

/-- setupNative from native.js: generate a fresh sessionUID, obtain a
socket for it through the memoized getNativeSocket, install it as the
module-level socket, and record the page url. -/
def setupNative (st : NativeModuleState) (config : NativeConfig) : NativeModuleState :=
  let uid := st.nextUID
  let st1 := { st with nextUID := st.nextUID + 1, sessionUID := some uid }
  let r := getNativeSocket st1
    { sessionUID := uid, version := config.version, firebaseConfig := config.firebaseConfig }
  { r.1 with nativeSocket := some r.2, initialPageUrl := some config.pageUrl }

/-- The socket fatal-error handler registered by setupNative: it nulls out
the module-level socket. -/
def nativeSocketOnError (st : NativeModuleState) : NativeModuleState :=
  { st with nativeSocket := none }

/-- Well-formedness of the module state: the installed socket was created
by the generator (index below nextSockId) and every memoized key uses an
already-consumed session id (below nextUID). -/
def moduleWF (st : NativeModuleState) : Bool :=
  (match st.nativeSocket with
   | none => true
   | some s => s.sockId < st.nextSockId) &&
  st.socketMemo.all (fun ks => ks.1.sessionUID < st.nextUID && ks.2.sockId < st.nextSockId)

/-- The props fields consumed by isNativeOptedIn and
isNativePaymentEligible. -/
structure NativeProps where
  enableNativeCheckout : Bool
  localStorageNativeFlag : Bool
deriving DecidableEq, Repr

/-- isNativeOptedIn from native.js: the prop, or the localStorage flag. -/
def isNativeOptedIn (props : NativeProps) : Bool :=
  if props.enableNativeCheckout then true
  else if props.localStorageNativeFlag then true
  else false

/-- isNativePaymentEligible from native.js: no pre-existing window, a
paypal or venmo funding source, a live module-level socket, and for venmo
the opt-in flag. -/
def isNativePaymentEligible (st : NativeModuleState) (payment : Payment)
    (props : NativeProps) : Bool :=
  if payment.win then false
  else if payment.fundingSource ≠ FundingSource.paypal ∧ payment.fundingSource ≠ FundingSource.venmo then false
  else if st.nativeSocket.isNone then false
  else if payment.fundingSource = FundingSource.venmo ∧ !isNativeOptedIn props then false
  else true

/-- The message types carried by the native message socket. -/
inductive MsgType
  | getProps
  | onApprove
  | onCancel
  | onErrorMsg
  | fallback
deriving DecidableEq, Repr

/-- External events performed by the native flow, in order. -/
inductive NEvent
  | popupOpen
  | popupClose
  | delayEv (ms : Nat)
  | socketOn (m : MsgType)
  | socketReconnect
  | sendSetProps
  | sendClose
  | socketRelease
  | callCreateOrder
  | callGetPageUrl
  | checkoutStart (win : Option Nat)
  | checkoutClose
deriving DecidableEq, Repr

/-- The handler registrations and the reconnect performed by connectNative
before it returns, in source order. -/
def socketRegEvents : List NEvent :=
  [.socketOn .getProps, .socketOn .onApprove, .socketOn .onCancel,
   .socketOn .onErrorMsg, .socketOn .fallback, .socketReconnect]

/-- The outcome of the popup(url) call inside appSwitchPopup. -/
inductive PopupResult
  | opened (w : Nat)
  | popupOpenErr
  | otherErr (msg : String)
deriving DecidableEq, Repr

/-- The state captured by an appSwitchPopup: the window handle when the
popup opened, and whether the iOS/Safari PopupOpenError marked an app
switch. -/
structure AppSwitchState where
  win : Option Nat
  appSwitched : Bool
deriving DecidableEq, Repr

/-- The environment of platform probes and external-call results for a
native-flow attempt. -/
structure NEnv where
  ios : Bool
  safari : Bool
  android : Bool
  chrome : Bool
  winClosed : Bool
  popupResult : PopupResult
  onClickResult : Option (Except String Bool)
  createOrderResult : Except String String
  sendSetPropsResult : Except String Unit
  sendCloseResult : Except String Unit
  checkoutStartResult : Except String Unit

/-- didSwitch from appSwitchPopup: the recorded iOS switch, or on
Android/Chrome a popup window found closed. -/
def didSwitch (env : NEnv) (a : AppSwitchState) : Bool :=
  if a.appSwitched then true
  else if env.android && env.chrome && a.win.isSome && env.winClosed then true
  else false

/-- appSwitchPopup's construction: open the popup; a PopupOpenError on
iOS Safari records an app switch, any other throw propagates. -/
def appSwitchPopupOpen (env : NEnv) : Except String AppSwitchState :=
  match env.popupResult with
  | .opened w => .ok { win := some w, appSwitched := false }
  | .popupOpenErr =>
    if env.ios && env.safari then .ok { win := none, appSwitched := true }
    else .error "PopupOpenError"
  | .otherErr m => .error m

/-- The sub-instance the returned close() currently delegates to: the
initial promiseNoop object, the handle returned by connectNative, or the
checkout fallback instance. -/
inductive Delegate
  | noopD
  | connected
  | checkoutD
deriving DecidableEq, Repr

/-- Decidable equality of settled promise outcomes. -/
instance instDecEqExcept {ε α : Type} [DecidableEq ε] [DecidableEq α] :
    DecidableEq (Except ε α) := fun x y =>
  match x, y with
  | .ok a, .ok b =>
    if h : a = b then .isTrue (by rw [h])
    else .isFalse (by intro hc; cases hc; exact h rfl)
  | .error a, .error b =>
    if h : a = b then .isTrue (by rw [h])
    else .isFalse (by intro hc; cases hc; exact h rfl)
  | .ok _, .error _ => .isFalse (by intro hc; cases hc)
  | .error _, .ok _ => .isFalse (by intro hc; cases hc)

/-- The per-attempt state of an initNative instance: the delegation
variable, the appSwitchPopup if click ran, and the memoize cache of
start. -/
structure NativeInstance where
  delegate : Delegate
  appSwitch : Option AppSwitchState
  startDone : Option (Except String Unit)
deriving DecidableEq, Repr

/-- The instance value initNative constructs before any interaction. -/
def nativeInstanceInit : NativeInstance :=
  { delegate := .noopD, appSwitch := none, startDone := none }

/-- The internal close helper of initNative (the 500ms grace-period one):
delay, then if the app switched, fire connectNative().close() (handlers
re-registered, close notice sent, socket released on ack), then close the
popup window if one exists.  Before click it dereferences the undefined
appSwitch and rejects. -/
def closeHelper (env : NEnv) (mod : NativeModuleState) (inst : NativeInstance) :
    List NEvent × Except String Unit :=
  match inst.appSwitch with
  | none => ([.delayEv 500], .error "TypeError: appSwitch is undefined")
  | some a =>
    if didSwitch env a then
      match mod.nativeSocket with
      | none => ([.delayEv 500], .error "Native socket connection not established")
      | some _ =>
        ([NEvent.delayEv 500] ++ socketRegEvents ++ [NEvent.sendClose]
           ++ (if a.win.isSome then [NEvent.popupClose] else [])
           ++ (match env.sendCloseResult with
               | .ok _ => [NEvent.socketRelease]
               | .error _ => []),
         .ok ())
    else
      ([NEvent.delayEv 500] ++ (if a.win.isSome then [NEvent.popupClose] else []),
       .ok ())

/-- click from initNative: open the popup (or record the app switch)
synchronously, then run the optional onClick validation; invalid closes
the artifact, a thrown validation closes it and propagates. -/
def nativeClick (env : NEnv) (mod : NativeModuleState) (inst : NativeInstance) :
    NativeInstance × (List NEvent × Except String Unit) :=
  match appSwitchPopupOpen env with
  | .error m => (inst, ([], .error m))
  | .ok a =>
    let inst1 := { inst with appSwitch := some a }
    let evts := match a.win with
      | some _ => [NEvent.popupOpen]
      | none => []
    match env.onClickResult with
    | none => (inst1, (evts, .ok ()))
    | some (.ok true) => (inst1, (evts, .ok ()))
    | some (.ok false) =>
      let c := closeHelper env mod inst1
      (inst1, (evts ++ c.1, .ok ()))
    | some (.error m) =>
      let c := closeHelper env mod inst1
      (inst1, (evts ++ c.1, .error m))

/-- The body of start (the un-memoized closure): create the order, then
either connect the socket and push the props, or fall back to web
checkout with the already-open popup window; any error runs the internal
close helper and propagates. -/
def nativeStartBody (env : NEnv) (mod : NativeModuleState) (inst : NativeInstance) :
    NativeInstance × (List NEvent × Except String Unit) :=
  let evts0 := [NEvent.callCreateOrder]
  match env.createOrderResult with
  | .error m =>
    let c := closeHelper env mod inst
    (inst, (evts0 ++ c.1, .error m))
  | .ok _ =>
    match inst.appSwitch with
    | none =>
      let c := closeHelper env mod inst
      (inst, (evts0 ++ c.1, .error "TypeError: appSwitch is undefined"))
    | some a =>
      if didSwitch env a then
        match mod.nativeSocket with
        | none =>
          let c := closeHelper env mod inst
          (inst, (evts0 ++ c.1, .error "Native socket connection not established"))
        | some _ =>
          let inst1 := { inst with delegate := .connected }
          let evts1 := evts0 ++ socketRegEvents ++ [NEvent.callCreateOrder, NEvent.callGetPageUrl, NEvent.sendSetProps]
          match env.sendSetPropsResult with
          | .ok _ => (inst1, (evts1, .ok ()))
          | .error m =>
            let c := closeHelper env mod inst1
            (inst1, (evts1 ++ c.1, .error m))
      else
        let inst1 := { inst with delegate := .checkoutD }
        let evts1 := evts0 ++ [NEvent.checkoutStart a.win]
        match env.checkoutStartResult with
        | .ok _ => (inst1, (evts1, .ok ()))
        | .error m =>
          let c := closeHelper env mod inst1
          (inst1, (evts1 ++ c.1, .error m))

/-- start from initNative: memoized, so a repeated call returns the cached
settled outcome without re-running the body. -/
def nativeStart (env : NEnv) (mod : NativeModuleState) (inst : NativeInstance) :
    NativeInstance × (List NEvent × Except String Unit) :=
  match inst.startDone with
  | some o => (inst, ([], o))
  | none =>
    let b := nativeStartBody env mod inst
    ({ b.1 with startDone := some b.2.2 }, (b.2.1, b.2.2))

/-- The close of the returned PaymentFlowInstance: () => instance.close(),
dispatching on the current delegate — the initial promiseNoop, the
connectNative handle (send a close notice, then release the socket on
ack), or the checkout fallback instance. -/
def nativeInstanceClose (env : NEnv) (_mod : NativeModuleState) (inst : NativeInstance) :
    NativeInstance × (List NEvent × Except String Unit) :=
  match inst.delegate with
  | .noopD => (inst, ([], .ok ()))
  | .connected =>
    match env.sendCloseResult with
    | .ok _ => (inst, ([NEvent.sendClose, NEvent.socketRelease], .ok ()))
    | .error m => (inst, ([NEvent.sendClose], .error m))
  | .checkoutD => (inst, ([NEvent.checkoutClose], .ok ()))

/-- The handler registrations and the reconnect that must be seen before a
setProps send. -/
def requiredBeforeSetProps : List NEvent := socketRegEvents

/-- Scanner for the ordering property: every sendSetProps in the trace is
preceded by all five handler registrations and the reconnect. -/
def hbAux (seen : List NEvent) : List NEvent → Bool
  | [] => true
  | e :: rest =>
    if e == NEvent.sendSetProps && !(requiredBeforeSetProps.all (fun r => seen.contains r)) then false
    else hbAux (e :: seen) rest

/-- The ordering property over a whole trace. -/
def handlersBeforeSetProps (t : List NEvent) : Bool := hbAux [] t

/-- A wallet-capture environment whose supplemental order info reports that
a shipping address is required while the cart already carries a full
shipping address, and whose one-click approval succeeds. -/
def envFullAddress : WCEnv where
  createOrderResult := .ok "ORDER1"
  supplementalOrderInfo := fun _ =>
    .ok { isShippingAddressRequired := true, shippingAddress := some { isFullAddress := true } }
  exchangeAccessTokenForAuthCode := fun _ => .ok "AUTHCODE1"
  oneClickApproveResult := .ok "PAYER1"
  checkoutStartResult := .ok ()
  onApproveResult := .ok ()

/-- A wallet-capture environment where shipping is not required and the
one-click approval call rejects. -/
def envApprovalRejects : WCEnv where
  createOrderResult := .ok "ORDER2"
  supplementalOrderInfo := fun _ =>
    .ok { isShippingAddressRequired := false, shippingAddress := none }
  exchangeAccessTokenForAuthCode := fun _ => .ok "AUTHCODE2"
  oneClickApproveResult := .error "APPROVAL_DENIED"
  checkoutStartResult := .ok ()
  onApproveResult := .ok ()

/-- A wallet-capture environment where shipping is genuinely still needed. -/
def envShippingNeeded : WCEnv where
  createOrderResult := .ok "ORDER3"
  supplementalOrderInfo := fun _ =>
    .ok { isShippingAddressRequired := true, shippingAddress := none }
  exchangeAccessTokenForAuthCode := fun _ => .ok "AUTHCODE3"
  oneClickApproveResult := .ok "PAYER3"
  checkoutStartResult := .ok ()
  onApproveResult := .ok ()

/-- A concrete validated wallet-capture instance. -/
def instSample : WalletCaptureInstance where
  payment := { win := false, fundingSource := .paypal, instrumentID := some "I1" }
  instrumentID := "I1"
  buyerAccessToken := "BAT1"
  instrumentType := "card"

/-- Service data whose paypal wallet entry holds a one-click card
instrument with the empty string as its instrument id. -/
def sdEmptyID : ServiceData where
  buyerAccessToken := some "BAT1"
  wallet := some [(FundingSource.paypal,
    { instruments := [{ instrumentID := "", oneClick := true, type := "card" }] })]

/-- A payment selecting the empty-string instrument id. -/
def paymentEmptyID : Payment where
  win := false
  fundingSource := .paypal
  instrumentID := some ""

/-- Service data matching the spec scenario: a one-click card instrument
with id I1 in the paypal wallet entry. -/
def sdScenario : ServiceData where
  buyerAccessToken := some "BAT1"
  wallet := some [(FundingSource.paypal,
    { instruments := [{ instrumentID := "I1", oneClick := true, type := "card" }] })]

/-- The spec-scenario payment: paypal, no window, instrument I1 selected. -/
def paymentScenario : Payment where
  win := false
  fundingSource := .paypal
  instrumentID := some "I1"

/-- A payment with no selected instrument id. -/
def paymentNoID : Payment where
  win := false
  fundingSource := .paypal
  instrumentID := none

/-- The module state of a freshly loaded native.js: every variable unset. -/
def freshModuleState : NativeModuleState where
  sessionUID := none
  nativeSocket := none
  initialPageUrl := none
  nextUID := 0
  nextSockId := 0
  socketMemo := []

/-- A concrete native configuration. -/
def cfgSample : NativeConfig where
  version := "5.0.100"
  firebaseConfig := "FBCFG"
  pageUrl := "https://merchant.example/cart"

/-- The module state after one setupNative call on a fresh page. -/
def moduleAfterSetup : NativeModuleState := setupNative freshModuleState cfgSample

/-- An Android/Chrome environment where the popup opens, there is no
onClick validation, and every external call succeeds. -/
def nenvPopupOpens : NEnv where
  ios := false
  safari := false
  android := true
  chrome := true
  winClosed := false
  popupResult := .opened 1
  onClickResult := none
  createOrderResult := .ok "ORDER9"
  sendSetPropsResult := .ok ()
  sendCloseResult := .ok ()
  checkoutStartResult := .ok ()

/-- An iOS/Safari environment where the popup open throws PopupOpenError,
marking an app switch, and every external call succeeds. -/
def nenvAppSwitched : NEnv where
  ios := true
  safari := true
  android := false
  chrome := false
  winClosed := false
  popupResult := .popupOpenErr
  onClickResult := none
  createOrderResult := .ok "ORDER10"
  sendSetPropsResult := .ok ()
  sendCloseResult := .ok ()
  checkoutStartResult := .ok ()

/-- The instance state after a click that opened a popup. -/
def instanceAfterClick : NativeInstance :=
  (nativeClick nenvPopupOpens moduleAfterSetup nativeInstanceInit).1

/-- A rejection of the one-click approval call is never the settled outcome
of walletCaptureStart: the rejection handler always redirects into the
web-checkout fallback. -/
theorem walletCaptureStart_no_approval_error (env : WCEnv) (inst : WalletCaptureInstance)
    (m : String) :
    (walletCaptureStart env inst).2 ≠ Except.error (WCError.approvalFailed m) := by
  simp only [walletCaptureStart, shippingRequired, fallbackToWebCheckout]
  repeat' split
  all_goals try simp
  all_goals (rename_i heq; split at heq)
  all_goals (cases heq <;> simp)

/-- C1 (amended): for every order whose supplemental order info reports
that a shipping address is required and whose cart does not already carry
a full shipping address, wallet-capture start() never calls
oneClickApproveOrder, always enters the web-checkout fallback (logging it
and exchanging the buyer access token), and, when the exchange succeeds,
starts checkout with the exchanged auth code, isClick false and the
pay-with-different-funding/shipping buyer intent. -/
theorem walletCaptureStart_shipping_needed_falls_back
    (env : WCEnv) (inst : WalletCaptureInstance) (orderID : String) (session : CheckoutSession)
    (hco : env.createOrderResult = Except.ok orderID)
    (hsup : env.supplementalOrderInfo orderID = Except.ok session)
    (hreq : session.isShippingAddressRequired = true)
    (hfull : ∀ addr, session.shippingAddress = some addr → addr.isFullAddress = false) :
    (∀ a b c d, WCEvent.callOneClickApproveOrder a b c d ∉ (walletCaptureStart env inst).1) ∧
    WCEvent.logWebCheckoutFallback ∈ (walletCaptureStart env inst).1 ∧
    WCEvent.callExchangeAccessTokenForAuthCode inst.buyerAccessToken ∈ (walletCaptureStart env inst).1 ∧
    (∀ authCode, env.exchangeAccessTokenForAuthCode inst.buyerAccessToken = Except.ok authCode →
      WCEvent.checkoutInitAndStart
        { payment := inst.payment, authCode := some authCode, isClick := false,
          buyerIntent := BuyerIntent.payWithDifferentFundingShipping } ∈ (walletCaptureStart env inst).1) := by
  have hsrc : shippingRequiredCompute session = true := by
    unfold shippingRequiredCompute
    rw [hreq]
    cases haddr : session.shippingAddress with
    | none => simp
    | some addr => simp [hfull addr haddr]
  simp only [walletCaptureStart, shippingRequired, fallbackToWebCheckout, hco, hsup, hsrc]
  rcases hex : env.exchangeAccessTokenForAuthCode inst.buyerAccessToken with m | authCode
  · refine ⟨?_, ?_, ?_, ?_⟩
    · intro a b c d
      simp
    · simp
    · simp
    · intro code hcode
      cases hcode
  · refine ⟨?_, ?_, ?_, ?_⟩
    · intro a b c d
      simp
    · simp
    · simp
    · intro code hcode
      cases hcode
      simp

/-- C1 counterexample: a supplemental order info that reports a shipping
address is required while the cart already holds a full address makes
wallet-capture start() call oneClickApproveOrder and skip the fallback,
refuting the claim as stated. -/
theorem walletCaptureStart_shipping_flag_counterexample :
    envFullAddress.createOrderResult = Except.ok "ORDER1" ∧
    (∃ session, envFullAddress.supplementalOrderInfo "ORDER1" = Except.ok session ∧
      session.isShippingAddressRequired = true) ∧
    WCEvent.callOneClickApproveOrder "ORDER1" "card" "BAT1" "I1" ∈
      (walletCaptureStart envFullAddress instSample).1 ∧
    WCEvent.logWebCheckoutFallback ∉ (walletCaptureStart envFullAddress instSample).1 := by
  refine ⟨rfl, ⟨_, rfl, rfl⟩, ?_, ?_⟩ <;> decide

/-- C4: when the one-click approval call rejects, wallet-capture start()
logs the approval error, enters the web-checkout fallback, and never
settles with the approval rejection itself. -/
theorem walletCaptureStart_approval_rejection_recovered
    (env : WCEnv) (inst : WalletCaptureInstance) (orderID : String) (session : CheckoutSession)
    (m : String)
    (hco : env.createOrderResult = Except.ok orderID)
    (hsup : env.supplementalOrderInfo orderID = Except.ok session)
    (hnoreq : shippingRequiredCompute session = false)
    (happ : env.oneClickApproveResult = Except.error m) :
    WCEvent.logApproveOrderError m ∈ (walletCaptureStart env inst).1 ∧
    WCEvent.logWebCheckoutFallback ∈ (walletCaptureStart env inst).1 ∧
    WCEvent.callExchangeAccessTokenForAuthCode inst.buyerAccessToken ∈ (walletCaptureStart env inst).1 ∧
    (∀ env2 inst2 m2, (walletCaptureStart env2 inst2).2 ≠ Except.error (WCError.approvalFailed m2)) := by
  refine ⟨?_, ?_, ?_, fun env2 inst2 m2 => walletCaptureStart_no_approval_error env2 inst2 m2⟩ <;>
  · simp only [walletCaptureStart, shippingRequired, fallbackToWebCheckout, hco, hsup, hnoreq, happ]
    rcases hex : env.exchangeAccessTokenForAuthCode inst.buyerAccessToken with m2 | authCode <;> simp

/-- C4 witness: a concrete environment whose approval call rejects. -/
theorem walletCaptureStart_approval_rejection_recovered_witness :
    envApprovalRejects.createOrderResult = Except.ok "ORDER2" ∧
    WCEvent.logApproveOrderError "APPROVAL_DENIED" ∈
      (walletCaptureStart envApprovalRejects instSample).1 ∧
    WCEvent.logWebCheckoutFallback ∈ (walletCaptureStart envApprovalRejects instSample).1 :=
  ⟨rfl,
   (walletCaptureStart_approval_rejection_recovered envApprovalRejects instSample "ORDER2"
      { isShippingAddressRequired := false, shippingAddress := none } "APPROVAL_DENIED"
      rfl rfl (by decide) rfl).1,
   (walletCaptureStart_approval_rejection_recovered envApprovalRejects instSample "ORDER2"
      { isShippingAddressRequired := false, shippingAddress := none } "APPROVAL_DENIED"
      rfl rfl (by decide) rfl).2.1⟩

/-- C1 witness: a concrete order that genuinely still needs shipping makes
start() fall back with the exchanged auth code and the non-click marking. -/
theorem walletCaptureStart_shipping_needed_falls_back_witness :
    envShippingNeeded.createOrderResult = Except.ok "ORDER3" ∧
    WCEvent.logWebCheckoutFallback ∈ (walletCaptureStart envShippingNeeded instSample).1 ∧
    WCEvent.checkoutInitAndStart
      { payment := instSample.payment, authCode := some "AUTHCODE3", isClick := false,
        buyerIntent := BuyerIntent.payWithDifferentFundingShipping } ∈
      (walletCaptureStart envShippingNeeded instSample).1 :=
  ⟨rfl,
   (walletCaptureStart_shipping_needed_falls_back envShippingNeeded instSample "ORDER3"
      { isShippingAddressRequired := true, shippingAddress := none } rfl rfl rfl
      (fun _ h => nomatch h)).2.1,
   (walletCaptureStart_shipping_needed_falls_back envShippingNeeded instSample "ORDER3"
      { isShippingAddressRequired := true, shippingAddress := none } rfl rfl rfl
      (fun _ h => nomatch h)).2.2.2 "AUTHCODE3" rfl⟩

/-- C6: initWalletCapture fails at construction time, returning no
instance, whenever the instrument id is missing, the buyer access token is
missing, the wallet has no entry for the funding source, no wallet
instrument matches the selected instrument id, or the matching instrument
has no type. -/
theorem initWalletCapture_fails_fast (sd : ServiceData) (payment : Payment)
    (h : payment.instrumentID = none ∨ sd.buyerAccessToken = none ∨
         walletEntry sd payment.fundingSource = none ∨
         (∃ wf, walletEntry sd payment.fundingSource = some wf ∧
            wf.instruments.find? (fun inst => inst.instrumentID == payment.instrumentID.getD "") = none) ∨
         (∃ wf inst, walletEntry sd payment.fundingSource = some wf ∧
            wf.instruments.find? (fun inst2 => inst2.instrumentID == payment.instrumentID.getD "") = some inst ∧
            inst.type = "")) :
    ∃ e, initWalletCapture sd payment = Except.error e := by
  by_cases h1 : jsStrFalsy payment.instrumentID = true
  · exact ⟨InitError.instrumentIDRequired, by simp [initWalletCapture, h1]⟩
  · by_cases h2 : jsStrFalsy sd.buyerAccessToken = true
    · exact ⟨InitError.buyerAccessTokenRequired, by simp [initWalletCapture, h1, h2]⟩
    · rcases hw : sd.wallet with _ | wallet
      · exact ⟨InitError.walletAccessTypeError, by simp [initWalletCapture, h1, h2, hw]⟩
      · rcases hlk : walletLookup wallet payment.fundingSource with _ | wf
        · exact ⟨InitError.walletFundingNotPresent, by simp [initWalletCapture, h1, h2, hw, hlk]⟩
        · have hentry : walletEntry sd payment.fundingSource = some wf := by
            simp [walletEntry, hw, hlk]
          rcases h with h | h | h | ⟨wf2, hwf2, hfind⟩ | ⟨wf2, inst, hwf2, hfind, hty⟩
          · rw [h] at h1
            exact absurd rfl h1
          · rw [h] at h2
            exact absurd rfl h2
          · rw [hentry] at h
            cases h
          · rw [hentry] at hwf2
            injection hwf2 with hwf3
            subst hwf3
            exact ⟨InitError.instrumentNotPresent, by simp [initWalletCapture, h1, h2, hw, hlk, hfind]⟩
          · rw [hentry] at hwf2
            injection hwf2 with hwf3
            subst hwf3
            exact ⟨InitError.instrumentTypeMissing, by simp [initWalletCapture, h1, h2, hw, hlk, hfind, hty]⟩

/-- C6 witness: a payment with no selected instrument id is rejected at
construction time. -/
theorem initWalletCapture_fails_fast_witness :
    paymentNoID.instrumentID = none ∧
    (∃ e, initWalletCapture sdScenario paymentNoID = Except.error e) :=
  ⟨rfl, initWalletCapture_fails_fast sdScenario paymentNoID (Or.inl rfl)⟩

/-- Inversion of a successful eligibility check: every field the deep
branch of isWalletCapturePaymentEligible requires must have held. -/
theorem isWalletCapturePaymentEligible_inversion (sd : ServiceData) (p : Payment)
    (h : isWalletCapturePaymentEligible sd p = true) :
    ∃ w wf inst, sd.wallet = some w ∧
      walletLookup w p.fundingSource = some wf ∧
      wf.instruments.find? (fun i => i.instrumentID == p.instrumentID.getD "") = some inst ∧
      inst.oneClick = true ∧ inst.type ≠ "" ∧
      p.fundingSource = FundingSource.paypal ∧ p.win = false ∧
      jsStrFalsy p.instrumentID = false := by
  unfold isWalletCapturePaymentEligible at h
  repeat' split at h
  all_goals first
    | (exact absurd h (by decide))
    | (rename_i hfs hwin xw wallet hw hid xwf wf hlk xinst inst hfind hoc hty
       exact ⟨wallet, wf, inst, hw, hlk, hfind, by simpa using hoc, by simpa using hty,
              by simpa using hfs, by simpa using hwin, by simpa using hid⟩)

/-- C8 (amended): the eligibility check returns true when the funding
source is PAYPAL, no window is attached, the selected instrument id is
non-empty, and the first wallet instrument carrying that id has oneClick
and a non-empty type; it returns false when no wallet instrument carries
the selected id, and also when the first instrument carrying it lacks
oneClick. -/
theorem isWalletCapturePaymentEligible_spec :
    (∀ (sd : ServiceData) (p : Payment) (id : String) (wf : WalletFunding) (inst : Instrument),
      p.fundingSource = FundingSource.paypal → p.win = false →
      p.instrumentID = some id → id ≠ "" →
      walletEntry sd p.fundingSource = some wf →
      wf.instruments.find? (fun i => i.instrumentID == id) = some inst →
      inst.oneClick = true → inst.type ≠ "" →
      isWalletCapturePaymentEligible sd p = true) ∧
    (∀ (sd : ServiceData) (p : Payment),
      (∀ wf, walletEntry sd p.fundingSource = some wf →
        ∀ i ∈ wf.instruments, i.instrumentID ≠ p.instrumentID.getD "") →
      isWalletCapturePaymentEligible sd p = false) ∧
    (∀ (sd : ServiceData) (p : Payment) (wf : WalletFunding) (inst : Instrument),
      walletEntry sd p.fundingSource = some wf →
      wf.instruments.find? (fun i => i.instrumentID == p.instrumentID.getD "") = some inst →
      inst.oneClick = false →
      isWalletCapturePaymentEligible sd p = false) := by
  refine ⟨?_, ?_, ?_⟩
  · intro sd p id wf inst hfs hwin hid hidne hentry hfind honce htype
    have hw : ∃ w, sd.wallet = some w ∧ walletLookup w p.fundingSource = some wf := by
      rcases hsw : sd.wallet with _ | w
      · rw [walletEntry, hsw] at hentry
        cases hentry
      · rw [walletEntry, hsw] at hentry
        exact ⟨w, rfl, by simpa using hentry⟩
    obtain ⟨w, hsw, hlk⟩ := hw
    unfold isWalletCapturePaymentEligible
    rw [hfs, hwin, hsw, hid]
    rw [hfs] at hlk
    simp [jsStrFalsy, hidne, hlk, hfind, honce, htype]
  · intro sd p hnone
    cases hb : isWalletCapturePaymentEligible sd p with
    | false => rfl
    | true =>
      obtain ⟨w, wf, inst, hsw, hlk, hfind, _, _, _, _, _⟩ :=
        isWalletCapturePaymentEligible_inversion sd p hb
      have hmem : inst ∈ wf.instruments := List.mem_of_find?_eq_some hfind
      have hpred := List.find?_some hfind
      have hid : inst.instrumentID = p.instrumentID.getD "" := by
        simpa using hpred
      have hentry : walletEntry sd p.fundingSource = some wf := by
        simp [walletEntry, hsw, hlk]
      exact absurd hid (hnone wf hentry inst hmem)
  · intro sd p wf inst hentry hfind honce
    cases hb : isWalletCapturePaymentEligible sd p with
    | false => rfl
    | true =>
      obtain ⟨w, wf2, inst2, hsw, hlk, hfind2, honce2, _, _, _, _⟩ :=
        isWalletCapturePaymentEligible_inversion sd p hb
      have hentry2 : walletEntry sd p.fundingSource = some wf2 := by
        simp [walletEntry, hsw, hlk]
      rw [hentry] at hentry2
      injection hentry2 with hwf
      subst hwf
      rw [hfind] at hfind2
      injection hfind2 with hinst
      subst hinst
      rw [honce] at honce2
      cases honce2

/-- C8 counterexample: the paypal wallet entry contains an instrument
matching the selected (empty-string) instrument id with a non-empty type
and oneClick, yet the eligibility check returns false, refuting the
positive half of the claim as stated. -/
theorem isWalletCapturePaymentEligible_counterexample :
    paymentEmptyID.fundingSource = FundingSource.paypal ∧
    paymentEmptyID.win = false ∧
    (∃ wf instr, walletEntry sdEmptyID paymentEmptyID.fundingSource = some wf ∧
       instr ∈ wf.instruments ∧
       some instr.instrumentID = paymentEmptyID.instrumentID ∧
       instr.type ≠ "" ∧ instr.oneClick = true) ∧
    isWalletCapturePaymentEligible sdEmptyID paymentEmptyID = false := by
  refine ⟨rfl, rfl,
    ⟨{ instruments := [{ instrumentID := "", oneClick := true, type := "card" }] },
     { instrumentID := "", oneClick := true, type := "card" }, ?_, ?_, ?_, ?_, ?_⟩, ?_⟩ <;> decide

/-- C8 witness: the spec scenario (instrument I1, type card, oneClick) is
eligible through the positive half of the amended statement. -/
theorem isWalletCapturePaymentEligible_spec_witness :
    isWalletCapturePaymentEligible sdScenario paymentScenario = true :=
  isWalletCapturePaymentEligible_spec.1 sdScenario paymentScenario "I1"
    { instruments := [{ instrumentID := "I1", oneClick := true, type := "card" }] }
    { instrumentID := "I1", oneClick := true, type := "card" }
    rfl rfl rfl (by decide) (by decide) (by decide) rfl (by decide)

/-- A lookup keyed by a session id that no memoized entry uses misses. -/
theorem socketMemo_lookup_fresh_none (memo : List (SocketKey × Socket)) (n m : Nat)
    (hall : memo.all (fun ks => ks.1.sessionUID < n && ks.2.sockId < m) = true)
    (key : SocketKey) (hk : key.sessionUID = n) :
    memo.lookup key = none := by
  induction memo with
  | nil => rfl
  | cons e rest ih =>
    simp only [List.all_cons, Bool.and_eq_true] at hall
    obtain ⟨⟨he, _⟩, hrest⟩ := hall
    have hne : (key == e.1) = false := by
      apply beq_eq_false_iff_ne.mpr
      intro hcontra
      rw [← hcontra, hk] at he
      simp at he
    simp only [List.lookup, hne]
    exact ih hrest

/-- C3 (amended): the module-level socket is mutated only by setupNative
(which installs one) and the error handler (which clears it); but
setupNative is not idempotent: every call, including one made while a
valid socket exists, generates a fresh session id and installs a newly
created socket, distinct from the one previously installed. -/
theorem nativeSocket_singleton_mutation (st : NativeModuleState) (config : NativeConfig)
    (hwf : moduleWF st = true) :
    (setupNative st config).nativeSocket =
      some { sockId := st.nextSockId, sessionUID := st.nextUID } ∧
    (∀ s, st.nativeSocket = some s → (setupNative st config).nativeSocket ≠ some s) ∧
    (nativeSocketOnError st).nativeSocket = none ∧
    moduleWF (setupNative st config) = true ∧
    moduleWF (nativeSocketOnError st) = true := by
  simp only [moduleWF, Bool.and_eq_true] at hwf
  obtain ⟨hsock, hmemo⟩ := hwf
  have hmiss : st.socketMemo.lookup
      { sessionUID := st.nextUID, version := config.version,
        firebaseConfig := config.firebaseConfig } = none :=
    socketMemo_lookup_fresh_none st.socketMemo st.nextUID st.nextSockId hmemo _ rfl
  have hsetup : (setupNative st config).nativeSocket =
      some { sockId := st.nextSockId, sessionUID := st.nextUID } := by
    simp only [setupNative, getNativeSocket, hmiss]
  refine ⟨hsetup, ?_, rfl, ?_, ?_⟩
  · intro s hs hcontra
    rw [hsetup] at hcontra
    injection hcontra with hcontra2
    rw [hs] at hsock
    have : s.sockId < st.nextSockId := by
      revert hsock
      simp
    rw [← hcontra2] at this
    exact Nat.lt_irrefl _ this
  · simp only [setupNative, getNativeSocket, hmiss, moduleWF, List.all_cons, Bool.and_eq_true,
               decide_eq_true_eq]
    refine ⟨Nat.lt_succ_self _, ⟨Nat.lt_succ_self _, Nat.lt_succ_self _⟩, ?_⟩
    rw [List.all_eq_true] at hmemo ⊢
    intro ks hks
    have h2 := hmemo ks hks
    simp only [Bool.and_eq_true, decide_eq_true_eq] at h2 ⊢
    exact ⟨Nat.lt_succ_of_lt h2.1, Nat.lt_succ_of_lt h2.2⟩
  · simp only [nativeSocketOnError, moduleWF]
    simpa using hmemo

/-- C3 witness: on a fresh page, setupNative installs socket 0. -/
theorem nativeSocket_singleton_mutation_witness :
    moduleWF freshModuleState = true ∧
    (setupNative freshModuleState cfgSample).nativeSocket =
      some { sockId := 0, sessionUID := 0 } :=
  ⟨by decide, (nativeSocket_singleton_mutation freshModuleState cfgSample (by decide)).1⟩

/-- C3 counterexample: calling setupNative again while the socket installed
by the first call is still valid replaces it with a newly created socket,
refuting the claim that a repeated setup must not recreate the socket. -/
theorem setupNative_recreates_socket_counterexample :
    moduleAfterSetup.nativeSocket = some { sockId := 0, sessionUID := 0 } ∧
    (setupNative moduleAfterSetup cfgSample).nativeSocket =
      some { sockId := 1, sessionUID := 1 } ∧
    (setupNative moduleAfterSetup cfgSample).nativeSocket ≠ moduleAfterSetup.nativeSocket := by
  refine ⟨?_, ?_, ?_⟩ <;> decide

/-- C10: whenever the module-level native socket is absent, the native flow
is payment-ineligible for every payment and every props configuration. -/
theorem isNativePaymentEligible_requires_socket (st : NativeModuleState)
    (payment : Payment) (props : NativeProps)
    (h : st.nativeSocket = none) :
    isNativePaymentEligible st payment props = false := by
  unfold isNativePaymentEligible
  rw [h]
  simp

/-- C10 witness: with no socket installed, a paypal payment that satisfies
every other gate is still ineligible. -/
theorem isNativePaymentEligible_requires_socket_witness :
    freshModuleState.nativeSocket = none ∧
    isNativePaymentEligible freshModuleState paymentScenario
      { enableNativeCheckout := true, localStorageNativeFlag := false } = false :=
  ⟨rfl, isNativePaymentEligible_requires_socket freshModuleState paymentScenario
    { enableNativeCheckout := true, localStorageNativeFlag := false } rfl⟩

/-- After any nativeStart call the memoize cache holds the settled outcome. -/
theorem nativeStart_caches (env : NEnv) (mod : NativeModuleState) (inst : NativeInstance) :
    ((nativeStart env mod inst).1).startDone = some (nativeStart env mod inst).2.2 := by
  rcases hsd : inst.startDone with _ | o <;> simp [nativeStart, hsd]

/-- C5: a second nativeStart call returns the identical cached outcome,
leaves the instance unchanged, and performs no external events at all: no
order creation, no popup, no setProps send. -/
theorem nativeStart_idempotent (env : NEnv) (mod : NativeModuleState) (inst : NativeInstance) :
    nativeStart env mod (nativeStart env mod inst).1 =
      ((nativeStart env mod inst).1, ([], (nativeStart env mod inst).2.2)) := by
  have hc := nativeStart_caches env mod inst
  rcases h1 : nativeStart env mod inst with ⟨i1, t1, o1⟩
  rw [h1] at hc
  simp only at hc
  simp [nativeStart, hc, h1]

/-- C7: before start() has run (and before any fallback), the instance
close delegates to the initial promiseNoop: it resolves without events and
touches no socket; initNative starts instances in that state and click
leaves it there. -/
theorem nativeInstanceClose_before_start_safe :
    nativeInstanceInit.delegate = Delegate.noopD ∧
    (∀ env mod inst, ((nativeClick env mod inst).1).delegate = inst.delegate) ∧
    (∀ env mod inst, inst.delegate = Delegate.noopD →
      nativeInstanceClose env mod inst = (inst, ([], Except.ok ()))) := by
  refine ⟨rfl, ?_, ?_⟩
  · intro env mod inst
    unfold nativeClick
    repeat' split
    all_goals rfl
  · intro env mod inst h
    unfold nativeInstanceClose
    rw [h]

/-- C7 witness: an instance that clicked (opening a popup) but never
started closes as a resolved no-op. -/
theorem nativeInstanceClose_before_start_safe_witness :
    instanceAfterClick.delegate = Delegate.noopD ∧
    nativeInstanceClose nenvPopupOpens moduleAfterSetup instanceAfterClick =
      (instanceAfterClick, ([], Except.ok ())) :=
  ⟨by decide, nativeInstanceClose_before_start_safe.2.2 nenvPopupOpens moduleAfterSetup
    instanceAfterClick (by decide)⟩

/-- C2 (amended): the close of the returned native PaymentFlowInstance
delegates to the current sub-instance: before any connection it resolves
immediately with no events; after the socket connected it sends the close
notice and then releases the socket (in that order, on acknowledgement);
after fallback it closes the checkout instance.  It never waits the
500ms grace period and never closes the popup itself (those belong to the
internal cleanup helper), leaves the instance unchanged, and so is safe
to call repeatedly or before start. -/
theorem nativeInstanceClose_delegates (env : NEnv) (mod : NativeModuleState)
    (inst : NativeInstance) :
    (inst.delegate = Delegate.noopD →
      nativeInstanceClose env mod inst = (inst, ([], Except.ok ()))) ∧
    (inst.delegate = Delegate.connected →
      (nativeInstanceClose env mod inst).2.1 =
        NEvent.sendClose :: (match env.sendCloseResult with
          | Except.ok _ => [NEvent.socketRelease]
          | Except.error _ => [])) ∧
    (inst.delegate = Delegate.checkoutD →
      nativeInstanceClose env mod inst = (inst, ([NEvent.checkoutClose], Except.ok ()))) ∧
    (nativeInstanceClose env mod inst).1 = inst ∧
    nativeInstanceClose env mod (nativeInstanceClose env mod inst).1 =
      nativeInstanceClose env mod inst ∧
    NEvent.delayEv 500 ∉ (nativeInstanceClose env mod inst).2.1 ∧
    NEvent.popupClose ∉ (nativeInstanceClose env mod inst).2.1 := by
  rcases hd : inst.delegate with _ | _ | _ <;>
    rcases hs : env.sendCloseResult with m | u <;>
      simp [nativeInstanceClose, hd, hs]

/-- C2 counterexample: after a click that opened a popup and before start,
the instance close resolves with an empty event trace: it neither waits
the grace delay nor closes the existing popup artifact, refuting the
claim as stated. -/
theorem nativeInstanceClose_no_grace_period_counterexample :
    (∃ a, instanceAfterClick.appSwitch = some a ∧ a.win.isSome = true) ∧
    (nativeInstanceClose nenvPopupOpens moduleAfterSetup instanceAfterClick).2.1 = [] ∧
    (nativeInstanceClose nenvPopupOpens moduleAfterSetup instanceAfterClick).2.2 =
      Except.ok () := by
  refine ⟨⟨{ win := some 1, appSwitched := false }, ?_, ?_⟩, ?_, ?_⟩ <;> decide

/-- C2 witness: the connected-delegate close sends the close notice before
releasing the socket. -/
theorem nativeInstanceClose_delegates_witness :
    (nativeInstanceClose nenvAppSwitched moduleAfterSetup
      { delegate := .connected, appSwitch := some { win := none, appSwitched := true },
        startDone := some (Except.ok ()) }).2.1 =
      [NEvent.sendClose, NEvent.socketRelease] :=
  (nativeInstanceClose_delegates nenvAppSwitched moduleAfterSetup
    { delegate := .connected, appSwitch := some { win := none, appSwitched := true },
      startDone := some (Except.ok ()) }).2.1 rfl

/-- A trace without any setProps send passes the ordering scan from any
seen-set. -/
theorem hbAux_of_not_mem (t : List NEvent) : ∀ seen, NEvent.sendSetProps ∉ t →
    hbAux seen t = true := by
  induction t with
  | nil =>
    intro seen _
    rfl
  | cons e rest ih =>
    intro seen h
    have he : (e == NEvent.sendSetProps) = false := by
      apply beq_eq_false_iff_ne.mpr
      intro hcontra
      exact h (hcontra ▸ List.mem_cons_self e rest)
    simp only [hbAux, he, Bool.false_and, Bool.false_eq_true, if_false]
    exact ih (e :: seen) (fun hm => h (List.mem_cons_of_mem e hm))

/-- The ordering scan distributes over appends, carrying the seen events. -/
theorem hbAux_append (t1 t2 : List NEvent) : ∀ seen,
    hbAux seen (t1 ++ t2) = (hbAux seen t1 && hbAux (t1.reverse ++ seen) t2) := by
  induction t1 with
  | nil =>
    intro seen
    simp [hbAux]
  | cons e rest ih =>
    intro seen
    simp only [List.cons_append, hbAux]
    split
    · simp
    · rw [List.append_eq, ih (e :: seen)]
      simp [List.reverse_cons, List.append_assoc]

/-- A whole trace without setProps sends trivially satisfies the ordering
property. -/
theorem handlersBefore_of_no_sp (t : List NEvent) (h : NEvent.sendSetProps ∉ t) :
    handlersBeforeSetProps t = true :=
  hbAux_of_not_mem t [] h

/-- A trace made of a checked prefix followed by a setProps-free tail
satisfies the ordering property. -/
theorem handlersBefore_append_no_sp (t1 t2 : List NEvent)
    (h1 : hbAux [] t1 = true) (h2 : NEvent.sendSetProps ∉ t2) :
    handlersBeforeSetProps (t1 ++ t2) = true := by
  unfold handlersBeforeSetProps
  rw [hbAux_append]
  simp [h1, hbAux_of_not_mem t2 _ h2]

/-- The internal close helper never sends setProps. -/
theorem closeHelper_no_setProps (env : NEnv) (mod : NativeModuleState)
    (inst : NativeInstance) :
    NEvent.sendSetProps ∉ (closeHelper env mod inst).1 := by
  unfold closeHelper
  repeat' split
  all_goals simp [socketRegEvents]

/-- click never sends setProps. -/
theorem nativeClick_no_setProps (env : NEnv) (mod : NativeModuleState)
    (inst : NativeInstance) :
    NEvent.sendSetProps ∉ (nativeClick env mod inst).2.1 := by
  unfold nativeClick
  repeat' split
  all_goals simp [closeHelper_no_setProps]

/-- C9: in every trace the native flow can produce — start, click, the
instance close and the internal close helper — each setProps send is
preceded by the registration of all five socket handlers (getProps,
onApprove, onCancel, onError, fallback) and by the reconnect call. -/
theorem handlers_registered_before_setProps (env : NEnv) (mod : NativeModuleState)
    (inst : NativeInstance) :
    handlersBeforeSetProps (nativeStart env mod inst).2.1 = true ∧
    handlersBeforeSetProps (nativeClick env mod inst).2.1 = true ∧
    handlersBeforeSetProps (nativeInstanceClose env mod inst).2.1 = true ∧
    handlersBeforeSetProps (closeHelper env mod inst).1 = true := by
  refine ⟨?_, ?_, ?_, ?_⟩
  · rcases hsd : inst.startDone with _ | o
    · rcases hco : env.createOrderResult with m | oid
      · simp [nativeStart, hsd, nativeStartBody, hco, handlersBeforeSetProps, hbAux,
              requiredBeforeSetProps, socketRegEvents]
        exact hbAux_of_not_mem _ _ (closeHelper_no_setProps env mod inst)
      · rcases has : inst.appSwitch with _ | a
        · simp [nativeStart, hsd, nativeStartBody, hco, has, handlersBeforeSetProps, hbAux,
                requiredBeforeSetProps, socketRegEvents]
          exact hbAux_of_not_mem _ _ (closeHelper_no_setProps env mod inst)
        · rcases hds : didSwitch env a with _ | _
          · rcases hcs : env.checkoutStartResult with m | u
            · simp [nativeStart, hsd, nativeStartBody, hco, has, hds, hcs,
                    handlersBeforeSetProps, hbAux, requiredBeforeSetProps, socketRegEvents]
              exact hbAux_of_not_mem _ _ (closeHelper_no_setProps env mod _)
            · simp [nativeStart, hsd, nativeStartBody, hco, has, hds, hcs,
                    handlersBeforeSetProps, hbAux, requiredBeforeSetProps, socketRegEvents]
          · rcases hns : mod.nativeSocket with _ | sock
            · simp [nativeStart, hsd, nativeStartBody, hco, has, hds, hns,
                    handlersBeforeSetProps, hbAux, requiredBeforeSetProps, socketRegEvents]
              exact hbAux_of_not_mem _ _ (closeHelper_no_setProps env mod inst)
            · rcases hsp : env.sendSetPropsResult with m | u
              · simp [nativeStart, hsd, nativeStartBody, hco, has, hds, hns, hsp,
                      handlersBeforeSetProps, hbAux, requiredBeforeSetProps, socketRegEvents]
                exact hbAux_of_not_mem _ _ (closeHelper_no_setProps env mod _)
              · simp [nativeStart, hsd, nativeStartBody, hco, has, hds, hns, hsp,
                      handlersBeforeSetProps, hbAux, requiredBeforeSetProps, socketRegEvents]
    · simp [nativeStart, hsd, handlersBeforeSetProps, hbAux]
  · exact handlersBefore_of_no_sp _ (nativeClick_no_setProps env mod inst)
  · rcases hd : inst.delegate with _ | _ | _ <;>
      rcases hs : env.sendCloseResult with m | u <;>
        simp [nativeInstanceClose, hd, hs, handlersBeforeSetProps, hbAux]
  · exact handlersBefore_of_no_sp _ (closeHelper_no_setProps env mod inst)

end SmartButtons
